import Mathlib

/-!
Verification of the session-lifecycle and request-execution core of the
unofficial Wispr Flow SDK.  The TypeScript sources (src/core/auth.ts,
src/core/client.ts, src/types.ts) are shallowly embedded: classes become
structures and explicit state passing, thrown errors become `Except`,
network nondeterminism becomes an explicit outcome parameter, and JS
numbers used as epoch seconds / HTTP statuses become `Int`.
-/

/-- Error value mirroring the `WisprError` class hierarchy of src/types.ts:
each subclass fixes `name`, `code` and (except ApiError) `statusCode`. -/
structure WisprError where
  name : String
  code : String
  statusCode : Option Int
  message : String
  details : Option String
deriving DecidableEq

deriving instance DecidableEq for Except

/-- Constructor of `WisprAuthError` (code AUTH_ERROR, statusCode 401). -/
def wisprAuthError (message : String) (details : Option String) : WisprError :=
  ⟨"WisprAuthError", "AUTH_ERROR", some 401, message, details⟩

/-- Constructor of `WisprApiError` (code API_ERROR, statusCode from the response). -/
def wisprApiError (message : String) (statusCode : Int) (details : Option String) : WisprError :=
  ⟨"WisprApiError", "API_ERROR", some statusCode, message, details⟩

/-- Constructor of `WisprValidationError` (code VALIDATION_ERROR, statusCode 400). -/
def wisprValidationError (message : String) (details : Option String) : WisprError :=
  ⟨"WisprValidationError", "VALIDATION_ERROR", some 400, message, details⟩

/-- Constructor of `WisprTimeoutError` (code TIMEOUT_ERROR, statusCode 408). -/
def wisprTimeoutError (message : String) : WisprError :=
  ⟨"WisprTimeoutError", "TIMEOUT_ERROR", some 408, message, none⟩

/-- The `AuthSession` interface of src/core/auth.ts.  `expiresAt` is an
absolute expiry instant in seconds since epoch. -/
structure AuthSession where
  accessToken : String
  refreshToken : String
  userUuid : String
  email : String
  expiresAt : Int
  firstName : Option String
  lastName : Option String
deriving DecidableEq

/-- The mutable state of a `WisprAuth` instance: the single stored
`currentSession` field (null = `none`). -/
structure AuthState where
  currentSession : Option AuthSession
deriving DecidableEq

/-- WisprAuth.isSessionExpired (src/core/auth.ts:379-386): true when no
session is stored or `expiresAt - bufferSeconds <= now`. -/
def isSessionExpired (st : AuthState) (now : Int) (bufferSeconds : Int) : Bool :=
  match st.currentSession with
  | none => true
  | some s => decide (s.expiresAt - bufferSeconds ≤ now)

/-- Outcome of the identity provider's refresh endpoint, the only
nondeterminism inside `refreshSession` once a refresh token exists. -/
inductive RefreshOutcome where
  | success (s : AuthSession)
  | failure (e : WisprError)
deriving DecidableEq

/-- Result of one `getValidAccessToken` call: the returned token or thrown
error, the state of the store afterwards, and how many times
`refreshSession` was invoked during the call. -/
structure TokenCallResult where
  result : Except WisprError String
  finalState : AuthState
  refreshCalls : Nat
deriving DecidableEq

/-- WisprAuth.getValidAccessToken (src/core/auth.ts:393-403): throws
AuthError when no session is stored; otherwise refreshes once when
`isSessionExpired()` (default buffer 60) holds, then returns the access
token of the currently stored session.  A successful refresh replaces the
stored session; a failed refresh propagates its error and leaves the store
unchanged. -/
def getValidAccessToken (st : AuthState) (now : Int) (refresh : RefreshOutcome) :
    TokenCallResult :=
  match st.currentSession with
  | none =>
      ⟨.error (wisprAuthError "Not signed in. Please sign in first." none), st, 0⟩
  | some s =>
      if isSessionExpired st now 60 then
        match refresh with
        | .success sNew => ⟨.ok sNew.accessToken, ⟨some sNew⟩, 1⟩
        | .failure e => ⟨.error e, st, 1⟩
      else
        ⟨.ok s.accessToken, st, 0⟩

/-- Parsed identity-provider response body for the password-grant and
refresh endpoints (`SupabaseSessionSchema` in src/core/auth.ts), flattened
to the fields the sign-in path reads. -/
structure SupabaseSessionResp where
  access_token : String
  token_type : String
  expires_in : Int
  expires_at : Int
  refresh_token : String
  user_id : String
  user_email : String
  full_name : Option String
deriving DecidableEq

/-- Session stored by WisprAuth.signInWithSupabase on a 2xx response
(src/core/auth.ts:219-227): `expiresAt` is taken from the response's
absolute `expires_at` field, and the display name is split on spaces into
first and last name. -/
def sessionFromSupabase (resp : SupabaseSessionResp) : AuthSession :=
  { accessToken := resp.access_token
    refreshToken := resp.refresh_token
    userUuid := resp.user_id
    email := resp.user_email
    expiresAt := resp.expires_at
    firstName := resp.full_name.map (fun n => (n.splitOn " ").headD "")
    lastName := resp.full_name.map (fun n => String.intercalate " " ((n.splitOn " ").drop 1)) }

/-- Outcome of the best-effort revocation fetch inside `signOut`: the fetch
either resolves (with any HTTP status, the response is ignored) or rejects
with a transport failure (caught and ignored). -/
inductive RevocationOutcome where
  | resolved (status : Int)
  | transportFailure
deriving DecidableEq

/-- WisprAuth.signOut (src/core/auth.ts:345-362): when a session is stored
it attempts server-side revocation, swallowing any failure, and then
unconditionally clears the stored session.  It never throws. -/
def signOut (st : AuthState) (outcome : RevocationOutcome) :
    Except WisprError AuthState :=
  match st.currentSession with
  | none => .ok ⟨none⟩
  | some _ =>
      match outcome with
      | .resolved _ => .ok ⟨none⟩
      | .transportFailure => .ok ⟨none⟩

/-- Outcome of a `fetch` inside WisprClient.request, as the catch clause of
src/core/client.ts:218-268 distinguishes them: a resolved response that is
2xx (`response.ok`) with a decoded JSON body of type `α`, a resolved
non-2xx response with its status, statusText and error body text, a
rejected promise whose error name is AbortError or TimeoutError, or any
other rejection. -/
inductive FetchOutcome (α : Type) where
  | success (status : Int) (data : α)
  | httpError (status : Int) (statusText : String) (errorBody : String)
  | abortTimeout
  | networkFailure (message : String)

/-- WisprClient.request (src/core/client.ts:218-268): classifies the fetch
outcome into the error taxonomy; on a 2xx response it runs the optional
schema (`parse`) and, when validation fails, logs a warning and returns the
raw decoded body unchanged. -/
def request (α : Type) (timeout : Int) (out : FetchOutcome α)
    (parse : α → Option α) : Except WisprError α :=
  match out with
  | .success _ data =>
      match parse data with
      | some v => .ok v
      | none => .ok data
  | .httpError status statusText errorBody =>
      if status = 401 then
        .error (wisprAuthError "Authentication failed. Token may be expired." none)
      else
        .error (wisprApiError ("API request failed: " ++ statusText) status (some errorBody))
  | .abortTimeout =>
      .error (wisprTimeoutError ("Request timed out after " ++ toString timeout ++ "ms"))
  | .networkFailure msg =>
      .error (wisprApiError msg 0 none)

/-- Response-status test `response.ok` of fetch: status in 200..299. -/
def responseOk (status : Int) : Bool :=
  decide (200 ≤ status ∧ status ≤ 299)

/-- Error classification of WisprAuth.checkUserStatus
(src/core/auth.ts:166-186): `none` when the response is 2xx, otherwise the
thrown error.  Every non-2xx status, 401 included, becomes a
WisprApiError. -/
def checkUserStatusClassify (status : Int) (statusText : String) : Option WisprError :=
  if responseOk status then none
  else some (wisprApiError ("Failed to check user status: " ++ statusText) status none)

/-- Error classification of WisprAuth.signInWithSupabase
(src/core/auth.ts:208-214): a 400 response means invalid credentials; any
other non-2xx response yields a generic AuthError. -/
def signInSupabaseClassify (status : Int) (statusText : String)
    (errorBody : String) : Option WisprError :=
  if responseOk status then none
  else if status = 400 then
    some (wisprAuthError "Invalid email or password" (some errorBody))
  else
    some (wisprAuthError ("Authentication failed: " ++ statusText) (some errorBody))

/-- Error classification of WisprAuth.signInWithWisprApi
(src/core/auth.ts:253-259): 401 or 400 means invalid credentials; any
other non-2xx response yields a generic AuthError. -/
def signInWisprApiClassify (status : Int) (statusText : String)
    (errorBody : String) : Option WisprError :=
  if responseOk status then none
  else if status = 401 ∨ status = 400 then
    some (wisprAuthError "Invalid email or password" (some errorBody))
  else
    some (wisprAuthError ("Authentication failed: " ++ statusText) (some errorBody))

/-- Error classification of WisprAuth.refreshSession
(src/core/auth.ts:315-324): 400 or 401 means the refresh token is expired
or invalid; any other non-2xx response yields a generic AuthError. -/
def refreshSessionClassify (status : Int) (statusText : String)
    (errorBody : String) : Option WisprError :=
  if responseOk status then none
  else if status = 400 ∨ status = 401 then
    some (wisprAuthError "Refresh token expired or invalid. Please sign in again." (some errorBody))
  else
    some (wisprAuthError ("Token refresh failed: " ++ statusText) (some errorBody))

/-- The `AppContext` shape of src/types.ts: every field nullable, `none`
standing for null/absent. -/
structure AppContext where
  name : Option String
  bundle_id : Option String
  type : Option String
  url : Option String
deriving DecidableEq

/-- The `TextboxContents` shape of src/types.ts. -/
structure TextboxContents where
  before_text : Option String
  selected_text : Option String
  after_text : Option String
deriving DecidableEq

/-- The `Conversation` shape of src/types.ts, messages flattened to
role/content pairs. -/
structure Conversation where
  id : String
  participants : Option (List String)
  messages : Option (List (String × String))
deriving DecidableEq

/-- The `TranscriptionContext` shape of src/types.ts.  A field that is
optional in the TypeScript type is an outer `Option` (absent = `none`);
a field that is additionally nullable carries an inner `Option`
(null = `some none`). -/
structure TranscriptionContext where
  app : Option AppContext
  ax_context : Option (List String)
  variable_names : Option (List String)
  file_names : Option (List String)
  ocr_context : Option (List String)
  dictionary_context : Option (List String)
  dictionary_replacements : Option (List (String × String))
  user_identifier : Option (Option String)
  user_first_name : Option (Option String)
  user_last_name : Option (Option String)
  textbox_contents : Option (Option TextboxContents)
  content_text : Option (Option String)
  screenshot : Option (Option String)
  content_html : Option (Option String)
  conversation : Option (Option Conversation)
deriving DecidableEq

/-- Default application descriptor substituted by buildContext when the
caller supplies no `app` (src/core/client.ts:358-363). -/
def defaultApp : AppContext :=
  ⟨none, none, some "other", none⟩

/-- WisprClient.buildContext (src/core/client.ts:356-379): fills every
field of the context with the caller's value or its documented default.
The JS `x ?? null` on a nullable-and-optional field collapses absent to
null, which is `Option.join` under the double-`Option` encoding. -/
def buildContext (context : Option TranscriptionContext) : TranscriptionContext :=
  { app := some ((context.bind (fun c => c.app)).getD defaultApp)
    ax_context := some ((context.bind (fun c => c.ax_context)).getD [])
    variable_names := some ((context.bind (fun c => c.variable_names)).getD [])
    file_names := some ((context.bind (fun c => c.file_names)).getD [])
    ocr_context := some ((context.bind (fun c => c.ocr_context)).getD [])
    dictionary_context := some ((context.bind (fun c => c.dictionary_context)).getD [])
    dictionary_replacements := some ((context.bind (fun c => c.dictionary_replacements)).getD [])
    user_identifier := some (context.bind (fun c => c.user_identifier)).join
    user_first_name := some (context.bind (fun c => c.user_first_name)).join
    user_last_name := some (context.bind (fun c => c.user_last_name)).join
    textbox_contents := some (context.bind (fun c => c.textbox_contents)).join
    content_text := some (context.bind (fun c => c.content_text)).join
    screenshot := some (context.bind (fun c => c.screenshot)).join
    content_html := some (context.bind (fun c => c.content_html)).join
    conversation := some (context.bind (fun c => c.conversation)).join }

/-- The validated `WisprConfig` of src/types.ts (`WisprConfigSchema`):
required access token and user UUID, optional URLs/version, timeout
defaulting to 30000 and debug defaulting to false. -/
structure WisprConfig where
  accessToken : String
  userUuid : String
  basetenApiKey : Option String
  apiBaseUrl : Option String
  basetenUrl : Option String
  clientVersion : Option String
  timeout : Int
  debug : Bool
deriving DecidableEq

/-- The non-secret projection returned by WisprClient.getConfig
(src/core/client.ts:384-393): exactly userUuid, apiBaseUrl, basetenUrl,
clientVersion, timeout and debug — neither accessToken nor
basetenApiKey. -/
structure PublicConfig where
  userUuid : String
  apiBaseUrl : Option String
  basetenUrl : Option String
  clientVersion : Option String
  timeout : Int
  debug : Bool
deriving DecidableEq

/-- WisprClient.getConfig (src/core/client.ts:384-393). -/
def getConfig (c : WisprConfig) : PublicConfig :=
  { userUuid := c.userUuid
    apiBaseUrl := c.apiBaseUrl
    basetenUrl := c.basetenUrl
    clientVersion := c.clientVersion
    timeout := c.timeout
    debug := c.debug }

/-- JS falsiness of an optional string option: `!x` is true when the value
is undefined (absent) or the empty string. -/
def falsyStr (o : Option String) : Bool :=
  match o with
  | none => true
  | some s => decide (s = "")

/-- The `WisprClientOptions` argument of the WisprClient constructor
(src/core/client.ts:29-38), with `auth` carried as the auth instance's
session store. -/
structure WisprClientOptions where
  accessToken : Option String
  userUuid : Option String
  auth : Option AuthState
  basetenApiKey : Option String
  apiBaseUrl : Option String
  basetenUrl : Option String
  clientVersion : Option String
  timeout : Option Int
  debug : Option Bool
deriving DecidableEq

/-- Outcome of the zod `WisprConfigSchema.safeParse` call inside the
constructor, external to src: either the parsed config or a rejection. -/
inductive SchemaParseOutcome where
  | parsed (c : WisprConfig)
  | rejected
deriving DecidableEq

/-- The WisprClient constructor (src/core/client.ts:106-168): takes tokens
from the auth session when an auth instance is given, checks the required
fields for JS truthiness, then validates through `WisprConfigSchema`
(modelled by the `schema` outcome).  Performs no network call. -/
def wisprClientCtor (options : WisprClientOptions)
    (schema : SchemaParseOutcome) : Except WisprError WisprConfig :=
  match
    (match options.auth with
     | some a =>
         match a.currentSession with
         | none =>
             Except.error (wisprValidationError
               "WisprAuth has no active session. Please sign in first."
               (some "No session found"))
         | some s =>
             Except.ok { options with
               accessToken := some s.accessToken
               userUuid := some s.userUuid }
     | none => Except.ok options) with
  | .error e => .error e
  | .ok opts =>
      if falsyStr opts.accessToken ∨ falsyStr opts.userUuid then
        .error (wisprValidationError
          "Either provide accessToken and userUuid, or provide an authenticated WisprAuth instance"
          (some "Missing required configuration"))
      else if falsyStr opts.basetenUrl then
        .error (wisprValidationError "basetenUrl is required" (some "Missing basetenUrl"))
      else if falsyStr opts.basetenApiKey then
        .error (wisprValidationError "basetenApiKey is required" (some "Missing basetenApiKey"))
      else
        match schema with
        | .parsed c => .ok c
        | .rejected =>
            .error (wisprValidationError "Invalid configuration" (some "schema errors"))

/-- The `WisprAuthOptions` argument of the WisprAuth constructor
(src/core/auth.ts:93-100). -/
structure WisprAuthOptions where
  supabaseUrl : Option String
  supabaseAnonKey : Option String
  wisprApiUrl : Option String
deriving DecidableEq

/-- Validated configuration held by a WisprAuth instance. -/
structure WisprAuthConfig where
  supabaseUrl : String
  supabaseAnonKey : String
  wisprApiUrl : String
deriving DecidableEq

/-- Default Wispr API base URL (src/core/constants.ts). -/
def DEFAULT_API_BASE_URL : String := "https://api.wisprflow.ai"

/-- The WisprAuth constructor (src/core/auth.ts:135-146): missing
supabaseUrl or supabaseAnonKey raise a WisprAuthError (not a
ValidationError).  Performs no network call. -/
def wisprAuthCtor (options : WisprAuthOptions) : Except WisprError WisprAuthConfig :=
  if falsyStr options.supabaseUrl then
    .error (wisprAuthError "supabaseUrl is required" none)
  else if falsyStr options.supabaseAnonKey then
    .error (wisprAuthError "supabaseAnonKey is required" none)
  else
    .ok { supabaseUrl := options.supabaseUrl.getD ""
          supabaseAnonKey := options.supabaseAnonKey.getD ""
          wisprApiUrl := options.wisprApiUrl.getD DEFAULT_API_BASE_URL }

/-- The `WisprFlowConfig` argument of WisprClient.create
(src/core/client.ts:46-69). -/
structure WisprFlowConfig where
  email : Option String
  password : Option String
  supabaseUrl : Option String
  supabaseAnonKey : Option String
  basetenUrl : Option String
  basetenApiKey : Option String
  apiBaseUrl : Option String
  clientVersion : Option String
  timeout : Option Int
  debug : Option Bool
  tokenRefreshBuffer : Option Int
deriving DecidableEq

/-- The checks WisprClient.create performs before its first network call
(src/core/client.ts:436-468): the six required-field checks, in source
order, followed by the WisprAuth constructor.  `none` means create
proceeds to the sign-in network call; `some e` means it throws `e` before
any network traffic. -/
def createPreNetwork (config : WisprFlowConfig) : Option WisprError :=
  if falsyStr config.email then
    some (wisprValidationError "email is required" (some "Missing email"))
  else if falsyStr config.password then
    some (wisprValidationError "password is required" (some "Missing password"))
  else if falsyStr config.supabaseUrl then
    some (wisprValidationError "supabaseUrl is required" (some "Missing supabaseUrl"))
  else if falsyStr config.supabaseAnonKey then
    some (wisprValidationError "supabaseAnonKey is required" (some "Missing supabaseAnonKey"))
  else if falsyStr config.basetenUrl then
    some (wisprValidationError "basetenUrl is required" (some "Missing basetenUrl"))
  else if falsyStr config.basetenApiKey then
    some (wisprValidationError "basetenApiKey is required" (some "Missing basetenApiKey"))
  else
    match wisprAuthCtor
        { supabaseUrl := config.supabaseUrl
          supabaseAnonKey := config.supabaseAnonKey
          wisprApiUrl := some ((config.apiBaseUrl).getD DEFAULT_API_BASE_URL) } with
    | .error e => some e
    | .ok _ => none

/-- Default client version reported by the SDK (src/core/constants.ts). -/
def DEFAULT_CLIENT_VERSION : String := "1.4.154"

/-- The caller-supplied partial metadata of a transcription request
(`TranscriptionMetadataSchema.partial()` in src/types.ts). -/
structure TranscriptionMetadataPartial where
  session_id : Option String
  environment : Option String
  client_platform : Option String
  client_version : Option String
  transcript_entity_uuid : Option String
deriving DecidableEq

/-- The `TranscriptionRequest` argument of WisprClient.transcribe
(src/types.ts): every field optional. -/
structure TranscriptionRequest where
  audioData : Option String
  prevAsrText : Option String
  context : Option TranscriptionContext
  languages : Option (List String)
  metadata : Option TranscriptionMetadataPartial
deriving DecidableEq

/-- The `request` object of the payload WisprClient.transcribe dispatches
(src/core/client.ts:312-332), metadata inlined. -/
structure TranscribePayload where
  access_token : String
  user_uuid : String
  session_id : String
  environment : String
  client_platform : String
  client_version : String
  transcript_entity_uuid : String
  audio : String
  audio_encoding : String
  prev_asr_text : String
  context : TranscriptionContext
  languages : List String
deriving DecidableEq

/-- Payload construction inside WisprClient.transcribe
(src/core/client.ts:302-341).  `sessionId` and `transcriptEntityUuid` are
the two UUIDs freshly generated at the start of the call; each request
field falls back to its fixed default when absent. -/
def buildTranscribePayload (accessToken userUuid clientVersion : String)
    (req : TranscriptionRequest) (sessionId transcriptEntityUuid : String) :
    TranscribePayload :=
  { access_token := accessToken
    user_uuid := userUuid
    session_id := (req.metadata.bind (fun m => m.session_id)).getD sessionId
    environment := (req.metadata.bind (fun m => m.environment)).getD "production"
    client_platform := (req.metadata.bind (fun m => m.client_platform)).getD "android"
    client_version := (req.metadata.bind (fun m => m.client_version)).getD clientVersion
    transcript_entity_uuid :=
      (req.metadata.bind (fun m => m.transcript_entity_uuid)).getD transcriptEntityUuid
    audio := req.audioData.getD ""
    audio_encoding := "wav"
    prev_asr_text := req.prevAsrText.getD ""
    context := buildContext req.context
    languages := req.languages.getD ["en"] }

/-- WisprAuth.getSession (src/core/auth.ts:369-371): pure read of the
stored session. -/
def getSession (st : AuthState) : Option AuthSession :=
  st.currentSession

/-- Totality check of a request context: every one of the 15 fields is
populated (present, possibly with a null value). -/
def contextTotal (c : TranscriptionContext) : Bool :=
  c.app.isSome && c.ax_context.isSome && c.variable_names.isSome &&
  c.file_names.isSome && c.ocr_context.isSome && c.dictionary_context.isSome &&
  c.dictionary_replacements.isSome && c.user_identifier.isSome &&
  c.user_first_name.isSome && c.user_last_name.isSome &&
  c.textbox_contents.isSome && c.content_text.isSome && c.screenshot.isSome &&
  c.content_html.isSome && c.conversation.isSome

/-- Sample session expiring at t = 1000. -/
def sessionA : AuthSession :=
  ⟨"tokA", "refA", "uuid-a", "a@example.com", 1000, none, none⟩

/-- Sample session delivered by a refresh, expiring at t = 9000. -/
def sessionB : AuthSession :=
  ⟨"tokB", "refB", "uuid-b", "b@example.com", 9000, none, none⟩

/-- Auth store holding no session. -/
def stateEmpty : AuthState := ⟨none⟩

/-- Auth store holding `sessionA`. -/
def stateWithA : AuthState := ⟨some sessionA⟩

/-- Sample error carried by a failing refresh outcome. -/
def errSample : WisprError := wisprAuthError "refresh rejected" none

/-- Identity-provider response whose absolute expiry 4600 is consistent
with expires_in = 3600 reported at T = 1000. -/
def respGood : SupabaseSessionResp :=
  ⟨"atk", "bearer", 3600, 4600, "rtk", "uuid-u", "u@example.com", none⟩

/-- Identity-provider response reporting expires_in = 3600 but an absolute
expiry of 1100, inconsistent with a sign-in time of T = 1000. -/
def respBad : SupabaseSessionResp :=
  ⟨"atk", "bearer", 3600, 1100, "rtk", "uuid-u", "u@example.com", none⟩

/-- Client options missing accessToken and userUuid (no auth instance). -/
def optsNoToken : WisprClientOptions :=
  ⟨none, none, none, some "bkey", none, some "https://bt.example", none, none, none⟩

/-- Create configuration missing only the email. -/
def cfgNoEmail : WisprFlowConfig :=
  ⟨none, some "pw", some "https://sb.example", some "anon", some "https://bt.example",
   some "bkey", none, none, none, none, none⟩

/-- Validated configuration sample. -/
def wisprCfg1 : WisprConfig :=
  ⟨"tok1", "uuid-a", some "key1", none, some "https://bt.example", none, 30000, false⟩

/-- Same as `wisprCfg1` except for the two secrets. -/
def wisprCfg2 : WisprConfig :=
  ⟨"tok2", "uuid-a", some "key2", none, some "https://bt.example", none, 30000, false⟩

/-- Transcription request with every field absent. -/
def reqEmpty : TranscriptionRequest := ⟨none, none, none, none, none⟩

/-- C1: `getValidAccessToken` fails with an AuthError and performs no
refresh when no session is stored; otherwise it performs exactly one
refresh when `isSessionExpired` with the default 60-second buffer holds and
none when it does not, never more than one per call, and any token it
returns is the access token of the session stored after the possible
refresh. -/
theorem claim_C1_getValidAccessToken (st : AuthState) (now : Int) (r : RefreshOutcome) :
    (st.currentSession = none →
      (getValidAccessToken st now r).result =
        Except.error (wisprAuthError "Not signed in. Please sign in first." none) ∧
      (getValidAccessToken st now r).refreshCalls = 0) ∧
    (st.currentSession ≠ none →
      (isSessionExpired st now 60 = true →
        (getValidAccessToken st now r).refreshCalls = 1) ∧
      (isSessionExpired st now 60 = false →
        (getValidAccessToken st now r).refreshCalls = 0)) ∧
    (getValidAccessToken st now r).refreshCalls ≤ 1 ∧
    (∀ t, (getValidAccessToken st now r).result = Except.ok t →
      ∃ s, (getValidAccessToken st now r).finalState.currentSession = some s ∧
        t = s.accessToken) := by
  obtain ⟨cs⟩ := st
  cases cs with
  | none =>
      refine ⟨fun _ => ⟨rfl, rfl⟩, fun h => absurd rfl h, Nat.zero_le 1, ?_⟩
      intro t ht
      exact absurd ht (by simp [getValidAccessToken])
  | some s =>
      by_cases hexp : isSessionExpired ⟨some s⟩ now 60 = true
      · cases r with
        | success sNew =>
            refine ⟨fun h => by simp at h, fun _ => ⟨fun _ => ?_, fun hf => ?_⟩, ?_, ?_⟩
            · simp [getValidAccessToken, hexp]
            · rw [hexp] at hf; cases hf
            · simp [getValidAccessToken, hexp]
            · intro t ht
              refine ⟨sNew, ?_, ?_⟩
              · simp [getValidAccessToken, hexp]
              · have : Except.ok (ε := WisprError) sNew.accessToken = Except.ok t := by
                  simpa [getValidAccessToken, hexp] using ht
                cases this; rfl
        | failure e =>
            refine ⟨fun h => by simp at h, fun _ => ⟨fun _ => ?_, fun hf => ?_⟩, ?_, ?_⟩
            · simp [getValidAccessToken, hexp]
            · rw [hexp] at hf; cases hf
            · simp [getValidAccessToken, hexp]
            · intro t ht
              exact absurd ht (by simp [getValidAccessToken, hexp])
      · have hexp' : isSessionExpired ⟨some s⟩ now 60 = false := by
          simpa using hexp
        refine ⟨fun h => by simp at h, fun _ => ⟨fun ht => ?_, fun _ => ?_⟩, ?_, ?_⟩
        · rw [ht] at hexp'; cases hexp'
        · simp [getValidAccessToken, hexp']
        · simp [getValidAccessToken, hexp']
        · intro t ht
          refine ⟨s, by simp [getValidAccessToken, hexp'], ?_⟩
          have : Except.ok (ε := WisprError) s.accessToken = Except.ok t := by
            simpa [getValidAccessToken, hexp'] using ht
          cases this; rfl

/-- C1 witness: concrete runs — an empty store performs no refresh and
fails; an expired store at t = 2000 performs exactly one refresh. -/
theorem claim_C1_witness :
    (getValidAccessToken stateEmpty 0 (RefreshOutcome.failure errSample)).refreshCalls = 0 ∧
    (getValidAccessToken stateWithA 2000 (RefreshOutcome.success sessionB)).refreshCalls = 1 :=
  ⟨((claim_C1_getValidAccessToken stateEmpty 0 (RefreshOutcome.failure errSample)).1 rfl).2,
   ((claim_C1_getValidAccessToken stateWithA 2000 (RefreshOutcome.success sessionB)).2.1
      (by decide)).1 (by decide)⟩

/-- C2: for every buffer b ≥ 0 and store state, `isSessionExpired b` is
true iff no session is stored or now ≥ expiresAt − b; in particular it is
false whenever a session is stored and now < expiresAt − b. -/
theorem claim_C2_isSessionExpired (st : AuthState) (now b : Int) (hb : 0 ≤ b) :
    (isSessionExpired st now b = true ↔
      st.currentSession = none ∨
        ∃ s, st.currentSession = some s ∧ now ≥ s.expiresAt - b) ∧
    (∀ s, st.currentSession = some s → now < s.expiresAt - b →
      isSessionExpired st now b = false) := by
  obtain ⟨cs⟩ := st
  constructor
  · cases cs with
    | none => simp [isSessionExpired]
    | some s =>
        simp only [isSessionExpired]
        constructor
        · intro h
          exact Or.inr ⟨s, rfl, by simpa [ge_iff_le] using of_decide_eq_true h⟩
        · rintro (h | ⟨s', hs', hle⟩)
          · cases h
          · cases hs'
            exact decide_eq_true (by simpa [ge_iff_le] using hle)
  · intro s hs hlt
    cases hs
    simp only [isSessionExpired]
    exact decide_eq_false (by omega)

/-- C2 witness: with `sessionA` (expiry 1000) stored, buffer 60, the check
is false at t = 500 and true at t = 940. -/
theorem claim_C2_witness :
    isSessionExpired stateWithA 500 60 = false ∧
    isSessionExpired stateWithA 940 60 = true :=
  ⟨(claim_C2_isSessionExpired stateWithA 500 60 (by decide)).2 sessionA rfl (by decide),
   ((claim_C2_isSessionExpired stateWithA 940 60 (by decide)).1).2
    (Or.inr ⟨sessionA, rfl, by decide⟩)⟩

/-- C4: when schema validation of a 2xx body fails, `request` still
succeeds and returns the raw decoded value unchanged — no exception is
raised because of the mismatch (a warning is only logged). -/
theorem claim_C4_schemaPermissive (α : Type) (timeout status : Int) (data : α)
    (parse : α → Option α) (hfail : parse data = none) :
    request α timeout (FetchOutcome.success status data) parse = Except.ok data := by
  simp [request, hfail]

/-- C4 witness: a concrete 200 response whose schema rejects everything is
returned unchanged. -/
theorem claim_C4_witness :
    request String 30000 (FetchOutcome.success 200 "raw-body") (fun _ => none) =
      Except.ok "raw-body" :=
  claim_C4_schemaPermissive String 30000 200 "raw-body" (fun _ => none) rfl

/-- C8: `signOut` never throws: for every prior store state and every
outcome of the best-effort revocation call it completes normally and the
stored session is cleared, so `getSession` afterwards returns none. -/
theorem claim_C8_signOut (st : AuthState) (outcome : RevocationOutcome) :
    ∃ st', signOut st outcome = Except.ok st' ∧ getSession st' = none := by
  refine ⟨⟨none⟩, ?_, rfl⟩
  obtain ⟨cs⟩ := st
  cases cs <;> cases outcome <;> rfl

/-- C5: `buildContext` is a total, idempotent pure function: the output of
any input (including an absent one) has all 15 fields populated; the empty
input yields the documented defaults (sentinel app of type other, empty
arrays, empty record, nulls); a present input has each field replaced by
the caller's value or, when absent, by its default — nested structures
such as `app` are substituted wholesale, not merged key-by-key; and
`buildContext (buildContext x) = buildContext x`. -/
theorem claim_C5_buildContext :
    (∀ c, buildContext (some (buildContext c)) = buildContext c) ∧
    (∀ c, contextTotal (buildContext c) = true) ∧
    (buildContext none =
      { app := some defaultApp
        ax_context := some []
        variable_names := some []
        file_names := some []
        ocr_context := some []
        dictionary_context := some []
        dictionary_replacements := some []
        user_identifier := some none
        user_first_name := some none
        user_last_name := some none
        textbox_contents := some none
        content_text := some none
        screenshot := some none
        content_html := some none
        conversation := some none }) ∧
    (∀ ctx : TranscriptionContext,
      buildContext (some ctx) =
        { app := some (ctx.app.getD defaultApp)
          ax_context := some (ctx.ax_context.getD [])
          variable_names := some (ctx.variable_names.getD [])
          file_names := some (ctx.file_names.getD [])
          ocr_context := some (ctx.ocr_context.getD [])
          dictionary_context := some (ctx.dictionary_context.getD [])
          dictionary_replacements := some (ctx.dictionary_replacements.getD [])
          user_identifier := some ctx.user_identifier.join
          user_first_name := some ctx.user_first_name.join
          user_last_name := some ctx.user_last_name.join
          textbox_contents := some ctx.textbox_contents.join
          content_text := some ctx.content_text.join
          screenshot := some ctx.screenshot.join
          content_html := some ctx.content_html.join
          conversation := some ctx.conversation.join }) :=
  ⟨fun _ => rfl, fun _ => rfl, rfl, fun _ => rfl⟩

/-- C6 counterexample: the code stores the response's absolute
`expires_at` and ignores `expires_in`; a sign-in at T = 1000 whose
response reports expires_in = 3600 but expires_at = 1100 yields a stored
expiry of 1100, not T + 3600 = 4600. -/
theorem claim_C6_counterexample :
    respBad.expires_in = 3600 ∧
    (sessionFromSupabase respBad).expiresAt = 1100 ∧
    ¬((sessionFromSupabase respBad).expiresAt = 1000 + 3600) := by
  refine ⟨rfl, rfl, ?_⟩
  decide

/-- C6 amended: the stored expiry is the response's absolute `expires_at`;
whenever that value equals T + 3600 (as it does when the provider's
expires_in = 3600 is consistent with the sign-in time T), `isSessionExpired
60` is false at T and true at T + 3541 or later. -/
theorem claim_C6_amended (resp : SupabaseSessionResp) (T : Int)
    (h : resp.expires_at = T + 3600) :
    (sessionFromSupabase resp).expiresAt = T + 3600 ∧
    isSessionExpired ⟨some (sessionFromSupabase resp)⟩ T 60 = false ∧
    (∀ now, T + 3541 ≤ now →
      isSessionExpired ⟨some (sessionFromSupabase resp)⟩ now 60 = true) := by
  refine ⟨by simp [sessionFromSupabase, h], ?_, ?_⟩
  · simp only [isSessionExpired, sessionFromSupabase, h]
    exact decide_eq_false (by omega)
  · intro now hn
    simp only [isSessionExpired, sessionFromSupabase, h]
    exact decide_eq_true (by omega)

/-- C6 witness: the consistent response `respGood` (expires_at = 4600) at
T = 1000 gives a session that is fresh at 1000 and expired at 4541. -/
theorem claim_C6_witness :
    isSessionExpired ⟨some (sessionFromSupabase respGood)⟩ 1000 60 = false ∧
    isSessionExpired ⟨some (sessionFromSupabase respGood)⟩ 4541 60 = true :=
  ⟨(claim_C6_amended respGood 1000 (by decide)).2.1,
   (claim_C6_amended respGood 1000 (by decide)).2.2 4541 (by decide)⟩

/-- C3 counterexample: not every remote call maps 401 to an AuthError —
`checkUserStatus` wraps every non-2xx response, 401 included, in a
WisprApiError (code API_ERROR), refuting the claim's blanket
401 → AuthError rule. -/
theorem claim_C3_counterexample :
    checkUserStatusClassify 401 "Unauthorized" =
      some (wisprApiError "Failed to check user status: Unauthorized" 401 none) ∧
    (wisprApiError "Failed to check user status: Unauthorized" 401 none).code = "API_ERROR" ∧
    "API_ERROR" ≠ "AUTH_ERROR" := by
  refine ⟨rfl, rfl, ?_⟩
  decide

/-- C3 amended: for calls through the client request helper, 401 yields an
AuthError, every other non-2xx yields an ApiError carrying the status and
body, and an abort or timeout yields a TimeoutError; on sign-in a 400
(Supabase path) or 400/401 (Wispr API path) yields an AuthError saying
invalid email or password, on refresh a 400/401 yields an AuthError saying
the refresh token expired — two distinct messages; `checkUserStatus` maps
every non-2xx, 401 included, to an ApiError; and other non-2xx failures of
sign-in and refresh also yield AuthError (not ApiError). -/
theorem claim_C3_amended (α : Type) (timeout : Int) (parse : α → Option α)
    (status : Int) (statusText errorBody : String) :
    (request α timeout (FetchOutcome.httpError 401 statusText errorBody) parse =
      Except.error (wisprAuthError "Authentication failed. Token may be expired." none)) ∧
    (status ≠ 401 →
      request α timeout (FetchOutcome.httpError status statusText errorBody) parse =
        Except.error
          (wisprApiError ("API request failed: " ++ statusText) status (some errorBody))) ∧
    (request α timeout FetchOutcome.abortTimeout parse =
      Except.error
        (wisprTimeoutError ("Request timed out after " ++ toString timeout ++ "ms"))) ∧
    (status = 400 →
      signInSupabaseClassify status statusText errorBody =
        some (wisprAuthError "Invalid email or password" (some errorBody))) ∧
    (status = 400 ∨ status = 401 →
      signInWisprApiClassify status statusText errorBody =
        some (wisprAuthError "Invalid email or password" (some errorBody))) ∧
    (status = 400 ∨ status = 401 →
      refreshSessionClassify status statusText errorBody =
        some (wisprAuthError
          "Refresh token expired or invalid. Please sign in again." (some errorBody))) ∧
    ("Invalid email or password" ≠
      "Refresh token expired or invalid. Please sign in again.") ∧
    (responseOk status = false →
      checkUserStatusClassify status statusText =
        some (wisprApiError ("Failed to check user status: " ++ statusText) status none)) ∧
    (responseOk status = false → ¬(status = 400 ∨ status = 401) →
      (signInSupabaseClassify status statusText errorBody =
        some (wisprAuthError ("Authentication failed: " ++ statusText) (some errorBody)) ∧
       refreshSessionClassify status statusText errorBody =
        some (wisprAuthError ("Token refresh failed: " ++ statusText) (some errorBody)))) := by
  refine ⟨?_, ?_, rfl, ?_, ?_, ?_, by decide, ?_, ?_⟩
  · simp [request]
  · intro h
    simp [request, h]
  · intro h
    subst h
    simp [signInSupabaseClassify, responseOk]
  · rintro (h | h) <;> subst h <;> simp [signInWisprApiClassify, responseOk]
  · rintro (h | h) <;> subst h <;> simp [refreshSessionClassify, responseOk]
  · intro h
    simp [checkUserStatusClassify, h]
  · intro h hne
    have h400 : ¬status = 400 := fun hc => hne (Or.inl hc)
    have h401 : ¬status = 401 := fun hc => hne (Or.inr hc)
    constructor
    · simp [signInSupabaseClassify, h, h400]
    · simp [refreshSessionClassify, h, h400, h401]

/-- C3 witness: concrete classifications — a 500 through the request
helper becomes an ApiError with status 500 and the body, a 400 on sign-in
and a 401 on refresh become the two distinct AuthErrors, and a 401 on
checkUserStatus becomes an ApiError. -/
theorem claim_C3_witness :
    (request String 30000 (FetchOutcome.httpError 500 "Internal Server Error" "oops")
        (fun x => some x) =
      Except.error (wisprApiError "API request failed: Internal Server Error" 500 (some "oops"))) ∧
    (signInSupabaseClassify 400 "Bad Request" "bad" =
      some (wisprAuthError "Invalid email or password" (some "bad"))) ∧
    (refreshSessionClassify 401 "Unauthorized" "stale" =
      some (wisprAuthError
        "Refresh token expired or invalid. Please sign in again." (some "stale"))) ∧
    (checkUserStatusClassify 401 "Unauthorized" =
      some (wisprApiError "Failed to check user status: Unauthorized" 401 none)) := by
  have h1 := claim_C3_amended String 30000 (fun x => some x) 500 "Internal Server Error" "oops"
  have h2 := claim_C3_amended String 30000 (fun x => some x) 400 "Bad Request" "bad"
  have h3 := claim_C3_amended String 30000 (fun x => some x) 401 "Unauthorized" "stale"
  have h4 := claim_C3_amended String 30000 (fun x => some x) 401 "Unauthorized" "x"
  exact ⟨h1.2.1 (by decide), h2.2.2.2.1 rfl, h3.2.2.2.2.2.1 (Or.inr rfl),
    h4.2.2.2.2.2.2.2.1 (by decide)⟩

/-- C7 counterexample: constructing an auth object with supabaseUrl
missing raises a WisprAuthError (code AUTH_ERROR), not a ValidationError,
refuting the claim that every such construction raises a
ValidationError. -/
theorem claim_C7_counterexample :
    wisprAuthCtor ⟨none, some "anon-key", none⟩ =
      Except.error (wisprAuthError "supabaseUrl is required" none) ∧
    (wisprAuthError "supabaseUrl is required" none).code = "AUTH_ERROR" ∧
    "AUTH_ERROR" ≠ "VALIDATION_ERROR" := by
  refine ⟨rfl, rfl, ?_⟩
  decide

/-- C7 amended: the client constructor raises a ValidationError, locally
and with no network call, when the access token / user UUID are missing
(or the supplied auth instance has no session), when basetenUrl or
basetenApiKey is missing, and when the config schema rejects the values;
`create` raises a ValidationError before any network call when any of its
six required fields is missing; direct construction of an auth object with
missing supabaseUrl or supabaseAnonKey instead raises an AuthError,
likewise locally before any network call. -/
theorem claim_C7_amended (options : WisprClientOptions) (schema : SchemaParseOutcome)
    (aopts : WisprAuthOptions) (config : WisprFlowConfig) (a : AuthState) :
    (falsyStr aopts.supabaseUrl = true →
      wisprAuthCtor aopts = Except.error (wisprAuthError "supabaseUrl is required" none)) ∧
    (falsyStr aopts.supabaseUrl = false → falsyStr aopts.supabaseAnonKey = true →
      wisprAuthCtor aopts = Except.error (wisprAuthError "supabaseAnonKey is required" none)) ∧
    (options.auth = some a → a.currentSession = none →
      wisprClientCtor options schema =
        Except.error (wisprValidationError
          "WisprAuth has no active session. Please sign in first."
          (some "No session found"))) ∧
    (options.auth = none →
      (falsyStr options.accessToken = true ∨ falsyStr options.userUuid = true) →
      wisprClientCtor options schema =
        Except.error (wisprValidationError
          "Either provide accessToken and userUuid, or provide an authenticated WisprAuth instance"
          (some "Missing required configuration"))) ∧
    (options.auth = none →
      falsyStr options.accessToken = false → falsyStr options.userUuid = false →
      falsyStr options.basetenUrl = true →
      wisprClientCtor options schema =
        Except.error (wisprValidationError "basetenUrl is required" (some "Missing basetenUrl"))) ∧
    (options.auth = none →
      falsyStr options.accessToken = false → falsyStr options.userUuid = false →
      falsyStr options.basetenUrl = false → falsyStr options.basetenApiKey = true →
      wisprClientCtor options schema =
        Except.error
          (wisprValidationError "basetenApiKey is required" (some "Missing basetenApiKey"))) ∧
    (options.auth = none →
      falsyStr options.accessToken = false → falsyStr options.userUuid = false →
      falsyStr options.basetenUrl = false → falsyStr options.basetenApiKey = false →
      schema = SchemaParseOutcome.rejected →
      wisprClientCtor options schema =
        Except.error (wisprValidationError "Invalid configuration" (some "schema errors"))) ∧
    ((falsyStr config.email = true ∨ falsyStr config.password = true ∨
      falsyStr config.supabaseUrl = true ∨ falsyStr config.supabaseAnonKey = true ∨
      falsyStr config.basetenUrl = true ∨ falsyStr config.basetenApiKey = true) →
      ∃ e, createPreNetwork config = some e ∧ e.code = "VALIDATION_ERROR") := by
  refine ⟨?_, ?_, ?_, ?_, ?_, ?_, ?_, ?_⟩
  · intro h
    unfold wisprAuthCtor
    rw [if_pos h]
  · intro h1 h2
    unfold wisprAuthCtor
    rw [if_neg (by simp [h1]), if_pos h2]
  · intro hauth hs
    simp [wisprClientCtor, hauth, hs]
  · intro hauth hmiss
    unfold wisprClientCtor
    rw [hauth]
    exact if_pos hmiss
  · intro hauth h1 h2 h3
    simp [wisprClientCtor, hauth, h1, h2, h3]
  · intro hauth h1 h2 h3 h4
    simp [wisprClientCtor, hauth, h1, h2, h3, h4]
  · intro hauth h1 h2 h3 h4 hschema
    simp [wisprClientCtor, hauth, h1, h2, h3, h4, hschema]
  · intro h
    unfold createPreNetwork
    by_cases h1 : falsyStr config.email = true
    · rw [if_pos h1]; exact ⟨_, rfl, rfl⟩
    · rw [if_neg h1]
      by_cases h2 : falsyStr config.password = true
      · rw [if_pos h2]; exact ⟨_, rfl, rfl⟩
      · rw [if_neg h2]
        by_cases h3 : falsyStr config.supabaseUrl = true
        · rw [if_pos h3]; exact ⟨_, rfl, rfl⟩
        · rw [if_neg h3]
          by_cases h4 : falsyStr config.supabaseAnonKey = true
          · rw [if_pos h4]; exact ⟨_, rfl, rfl⟩
          · rw [if_neg h4]
            by_cases h5 : falsyStr config.basetenUrl = true
            · rw [if_pos h5]; exact ⟨_, rfl, rfl⟩
            · rw [if_neg h5]
              by_cases h6 : falsyStr config.basetenApiKey = true
              · rw [if_pos h6]; exact ⟨_, rfl, rfl⟩
              · rcases h with h | h | h | h | h | h
                exacts [absurd h h1, absurd h h2, absurd h h3, absurd h h4,
                  absurd h h5, absurd h h6]

/-- C7 witness: constructing a client without tokens and calling create
without an email both produce VALIDATION_ERROR values, and the auth
constructor without a supabaseUrl produces its AuthError. -/
theorem claim_C7_witness :
    (wisprClientCtor optsNoToken SchemaParseOutcome.rejected =
      Except.error (wisprValidationError
        "Either provide accessToken and userUuid, or provide an authenticated WisprAuth instance"
        (some "Missing required configuration"))) ∧
    (∃ e, createPreNetwork cfgNoEmail = some e ∧ e.code = "VALIDATION_ERROR") ∧
    (wisprAuthCtor ⟨none, some "anon", none⟩ =
      Except.error (wisprAuthError "supabaseUrl is required" none)) := by
  have h := claim_C7_amended optsNoToken SchemaParseOutcome.rejected
    ⟨none, some "anon", none⟩ cfgNoEmail stateEmpty
  exact ⟨h.2.2.2.1 rfl (Or.inl rfl), h.2.2.2.2.2.2.2 (Or.inl rfl), h.1 rfl⟩

/-- C9: in the dispatched transcribe payload every absent request field is
replaced by its fixed default — empty audio string (the payload is still
built and sent, not rejected), languages [en], empty prev_asr_text,
environment production, client_platform android, the configured client
version, and the two freshly generated UUIDs — while every caller-supplied
value is used exactly as given. -/
theorem claim_C9_transcribeDefaults (tok uuid ver : String)
    (req : TranscriptionRequest) (sid teid : String) :
    (req.audioData = none →
      (buildTranscribePayload tok uuid ver req sid teid).audio = "") ∧
    (∀ a, req.audioData = some a →
      (buildTranscribePayload tok uuid ver req sid teid).audio = a) ∧
    (req.languages = none →
      (buildTranscribePayload tok uuid ver req sid teid).languages = ["en"]) ∧
    (∀ ls, req.languages = some ls →
      (buildTranscribePayload tok uuid ver req sid teid).languages = ls) ∧
    (req.prevAsrText = none →
      (buildTranscribePayload tok uuid ver req sid teid).prev_asr_text = "") ∧
    (∀ p, req.prevAsrText = some p →
      (buildTranscribePayload tok uuid ver req sid teid).prev_asr_text = p) ∧
    (req.metadata.bind (fun m => m.environment) = none →
      (buildTranscribePayload tok uuid ver req sid teid).environment = "production") ∧
    (∀ v, req.metadata.bind (fun m => m.environment) = some v →
      (buildTranscribePayload tok uuid ver req sid teid).environment = v) ∧
    (req.metadata.bind (fun m => m.client_platform) = none →
      (buildTranscribePayload tok uuid ver req sid teid).client_platform = "android") ∧
    (∀ v, req.metadata.bind (fun m => m.client_platform) = some v →
      (buildTranscribePayload tok uuid ver req sid teid).client_platform = v) ∧
    (req.metadata.bind (fun m => m.client_version) = none →
      (buildTranscribePayload tok uuid ver req sid teid).client_version = ver) ∧
    (∀ v, req.metadata.bind (fun m => m.client_version) = some v →
      (buildTranscribePayload tok uuid ver req sid teid).client_version = v) ∧
    (req.metadata.bind (fun m => m.session_id) = none →
      (buildTranscribePayload tok uuid ver req sid teid).session_id = sid) ∧
    (∀ v, req.metadata.bind (fun m => m.session_id) = some v →
      (buildTranscribePayload tok uuid ver req sid teid).session_id = v) ∧
    (req.metadata.bind (fun m => m.transcript_entity_uuid) = none →
      (buildTranscribePayload tok uuid ver req sid teid).transcript_entity_uuid = teid) ∧
    (∀ v, req.metadata.bind (fun m => m.transcript_entity_uuid) = some v →
      (buildTranscribePayload tok uuid ver req sid teid).transcript_entity_uuid = v) := by
  refine ⟨fun h => ?_, fun a h => ?_, fun h => ?_, fun ls h => ?_, fun h => ?_,
    fun p h => ?_, fun h => ?_, fun v h => ?_, fun h => ?_, fun v h => ?_,
    fun h => ?_, fun v h => ?_, fun h => ?_, fun v h => ?_, fun h => ?_,
    fun v h => ?_⟩ <;>
  simp [buildTranscribePayload, h]

/-- C9 witness: the empty request produces the documented defaults. -/
theorem claim_C9_witness :
    (buildTranscribePayload "tok" "uuid-a" "1.4.154" reqEmpty "sid-1" "teid-1").audio = "" ∧
    (buildTranscribePayload "tok" "uuid-a" "1.4.154" reqEmpty "sid-1" "teid-1").languages = ["en"] ∧
    (buildTranscribePayload "tok" "uuid-a" "1.4.154" reqEmpty "sid-1" "teid-1").environment =
      "production" ∧
    (buildTranscribePayload "tok" "uuid-a" "1.4.154" reqEmpty "sid-1" "teid-1").session_id =
      "sid-1" := by
  have h := claim_C9_transcribeDefaults "tok" "uuid-a" "1.4.154" reqEmpty "sid-1" "teid-1"
  exact ⟨h.1 rfl, h.2.2.1 rfl, h.2.2.2.2.2.2.1 rfl, h.2.2.2.2.2.2.2.2.2.2.2.2.1 rfl⟩

/-- C10: `getConfig` exposes exactly the six non-secret fields (userUuid,
apiBaseUrl, basetenUrl, clientVersion, timeout, debug), and any two
configurations that differ only in accessToken and/or basetenApiKey yield
equal results. -/
theorem claim_C10_getConfig (c c1 c2 : WisprConfig)
    (h : c1.userUuid = c2.userUuid ∧ c1.apiBaseUrl = c2.apiBaseUrl ∧
      c1.basetenUrl = c2.basetenUrl ∧ c1.clientVersion = c2.clientVersion ∧
      c1.timeout = c2.timeout ∧ c1.debug = c2.debug) :
    getConfig c =
      PublicConfig.mk c.userUuid c.apiBaseUrl c.basetenUrl c.clientVersion c.timeout c.debug ∧
    getConfig c1 = getConfig c2 := by
  obtain ⟨h1, h2, h3, h4, h5, h6⟩ := h
  exact ⟨rfl, by simp [getConfig, h1, h2, h3, h4, h5, h6]⟩

/-- C10 witness: two configurations differing only in the access token and
the baseten key produce identical public views. -/
theorem claim_C10_witness : getConfig wisprCfg1 = getConfig wisprCfg2 :=
  (claim_C10_getConfig wisprCfg1 wisprCfg1 wisprCfg2
    ⟨rfl, rfl, rfl, rfl, rfl, rfl⟩).2
